import Mathlib

/-!
Shallow embedding of the core RAG pipeline of the youtube-RAG repository:
the Chroma-backed vector store wrapper (src/src/rag/vectorstore.py), the two
retrievers (src/src/rag/retriever.py), the chat orchestrator
(src/src/services/chat.py) and the indexing orchestrator
(src/src/services/indexing.py), together with theorems checking the
natural-language specification against this code.

Conventions: Python floats are modelled as rationals, Python exceptions as
an `Except String` result (`.error msg` is a raised exception carrying
`str(e)`), Python dicts with `.get` defaults as structures of `Option`
fields, and external collaborators (embedding backends, the ChromaDB
engine, the YouTube client, the LLM generators) as function parameters.

The file is laid out as definitions first, then theorems.
-/

set_option autoImplicit false

namespace YoutubeRAG

/-- Python exception monad: `.error msg` models a raised exception. -/
abbrev Py (α : Type) := Except String α

/-- Chunk/document metadata dict. Fields are `Option` so that the model of
Python `dict.get(key, default)` is `Option.getD` (indexing.py lines 81-87
always fills all five keys; chat.py lines 100-108 reads them with
defaults). -/
structure Metadata where
  video_id : Option String := none
  video_title : Option String := none
  channel_id : Option String := none
  channel_name : Option String := none
  published_at : Option String := none
deriving Repr, DecidableEq

/-- A retrieval-result dict with keys text, score, metadata
(retriever.py lines 46-53). -/
structure Doc where
  text : String
  score : ℚ
  metadata : Metadata
deriving Repr, DecidableEq

/-- A source entry of the answer payload (chat.py lines 102-109). -/
structure Source where
  video_title : String
  video_id : String
  channel_name : String
  score : ℚ
deriving Repr, DecidableEq

/-- The answer payload dict with keys answer and sources
(chat.py lines 111-114). -/
structure Answer where
  answer : String
  sources : List Source
deriving Repr, DecidableEq

/-- Stable insertion used to model sorting by a Boolean relation: a is put
before the first element b with le a b; on ties the earlier element stays
first, as with Python's stable list.sort. -/
def insertBy {α : Type} (le : α → α → Bool) (a : α) : List α → List α
  | [] => [a]
  | b :: l => if le a b then a :: b :: l else b :: insertBy le a l

/-- Stable insertion sort by the Boolean relation le; models Python
list.sort with a key (ascending for le = key-≤, descending for the
flipped relation). -/
def sortBy {α : Type} (le : α → α → Bool) : List α → List α
  | [] => []
  | a :: l => insertBy le a (sortBy le l)

/-- An index entry persisted in a Chroma collection: id, document text,
embedding and metadata (vectorstore.py add_documents/search). -/
structure Entry where
  id : String
  text : String
  embedding : List ℚ
  metadata : Metadata
deriving Repr, DecidableEq

/-- A named Chroma collection, modelled as its list of entries in
insertion order; `collection.count()` is its length. -/
abbrev Collection := List Entry

namespace ChromaVectorStore

/-- Auto-generated document id (vectorstore.py line 73): the f-string
interpolation of a decimal number after the fixed doc marker. -/
def docId (n : Nat) : String := "doc_" ++ Nat.repr n

/-- Entries built from parallel id/text/embedding/metadata lists, as
`collection.add` stores them (vectorstore.py lines 79-84). -/
def mkEntries : List String → List String → List (List ℚ) → List Metadata →
    List Entry
  | i :: is, t :: ts, e :: es, m :: ms => ⟨i, t, e, m⟩ :: mkEntries is ts es ms
  | _, _, _, _ => []

/-- ChromaVectorStore.add_documents (vectorstore.py lines 54-88): when ids
are omitted they are generated from the collection size at call time plus
a per-call sequence number (lines 71-73); when metadatas are omitted they
default to empty dicts (lines 76-77); the entries are appended to the
collection. -/
def add_documents (c : Collection) (texts : List String)
    (embeddings : List (List ℚ)) (metadatas : Option (List Metadata))
    (ids : Option (List String)) : Collection :=
  let ids := match ids with
    | some given => given
    | none => (List.range texts.length).map (fun i => docId (c.length + i))
  let metadatas := match metadatas with
    | some given => given
    | none => texts.map (fun _ => {})
  c ++ mkEntries ids texts embeddings metadatas

/-- Modelled from the spec: `collection.query` of the external ChromaDB
backend (vectorstore.py lines 103-106 delegates to it; the engine itself
is not part of this repository). Per its contract it returns the
n_results entries nearest to the query, ascending by the collection's
distance metric, and returns fewer when the collection holds fewer
entries. The distance of each entry to the query embedding is abstracted
as the function argument dist (the cosine metric is irrational-valued). -/
def query (dist : Entry → ℚ) (c : Collection) (n_results : Nat) : List Entry :=
  (sortBy (fun a b => decide (dist a ≤ dist b)) c).take n_results

/-- ChromaVectorStore.search (vectorstore.py lines 90-123): query the
collection and convert each distance to the similarity score 1 - dist
(line 114), keeping the backend's ascending-distance order. -/
def search (dist : Entry → ℚ) (c : Collection) (k : Nat) :
    List (String × ℚ × Metadata) :=
  (query dist c k).map (fun e => (e.text, 1 - dist e, e.metadata))

end ChromaVectorStore

/-- Decimal value of a digit character; inverse of Nat.digitChar on
digits 0-9. Used to prove the auto-generated ids injective. -/
def decDigit (c : Char) : Nat := c.toNat - 48

/-- Fold a decimal digit string back to the number it denotes; left
inverse of the decimal printing behind Nat.repr. -/
def parseDigits (cs : List Char) (a : Nat) : Nat :=
  cs.foldl (fun acc c => 10 * acc + decDigit c) a

/-- Python `k or default` on an optional int (retriever.py lines 37 and
90): both None and 0 are falsy, so an explicit k=0 also selects the
default. -/
def orDefault (k : Option Nat) (d : Nat) : Nat :=
  match k with
  | none => d
  | some v => if v = 0 then d else v

namespace SimpleRetriever

/-- SimpleRetriever.retrieve (retriever.py lines 27-56): resolve k by
truthiness, embed the query (an EmbeddingError propagates), search the
store, and wrap the tuples as document dicts. The per-entry distance of
the store's metric is abstracted as dist applied to the query
embedding. -/
def retrieve (retrieval_k : Nat) (embed_text : String → Py (List ℚ))
    (dist : List ℚ → Entry → ℚ) (c : Collection)
    (query : String) (k : Option Nat) : Py (List Doc) :=
  let k := orDefault k retrieval_k
  match embed_text query with
  | .error e => .error e
  | .ok query_embedding =>
    .ok ((ChromaVectorStore.search (dist query_embedding) c k).map
      (fun r => Doc.mk r.1 r.2.1 r.2.2))

end SimpleRetriever

namespace RerankingRetriever

/-- Whitespace tokenizer over a character list with an accumulator for
the current word, mirroring Python str.split() with no argument: runs of
whitespace separate tokens and produce no empty pieces. Structural so
that concrete queries evaluate inside the kernel. -/
def splitTokens : List Char → List Char → List String
  | [], acc => if acc.isEmpty then [] else [String.mk acc.reverse]
  | c :: rest, acc =>
    if c.isWhitespace then
      if acc.isEmpty then splitTokens rest []
      else String.mk acc.reverse :: splitTokens rest [] else
    splitTokens rest (c :: acc)

/-- Lowercase whitespace tokenization into a term set, modelling
`set(query.lower().split())` (retriever.py lines 130 and 134): lowercase
every character, split on whitespace, keep the first occurrence of each
distinct token (only membership and size of the set matter). -/
def termSet (s : String) : List String :=
  (splitTokens (s.data.map Char.toLower) []).eraseDups

/-- Score one candidate (retriever.py lines 133-139): lexical overlap is
the intersection size divided by the query term count — a division that
raises ZeroDivisionError when the query term set is empty — and the
combined score is 0.7 * similarity + 0.3 * overlap. -/
def scoreResult (query_terms : List String) :
    String × ℚ × Metadata → Py (String × ℚ × Metadata)
  | (text, score, metadata) =>
    let doc_terms := termSet text
    if query_terms.length = 0 then
      .error "ZeroDivisionError: division by zero"
    else
      let overlap_score : ℚ :=
        ((query_terms.filter (fun t => t ∈ doc_terms)).length : ℚ) /
          (query_terms.length : ℚ)
      .ok (text, (7 / 10 : ℚ) * score + (3 / 10 : ℚ) * overlap_score, metadata)

/-- The scoring for-loop of _rerank_by_term_overlap (retriever.py lines
132-139): score the candidates in order, an exception at any candidate
aborting the whole call. -/
def scoreAll (query_terms : List String) :
    List (String × ℚ × Metadata) → Py (List (String × ℚ × Metadata))
  | [] => .ok []
  | r :: rest =>
    match scoreResult query_terms r with
    | .error e => .error e
    | .ok scored =>
      match scoreAll query_terms rest with
      | .error e => .error e
      | .ok scored_rest => .ok (scored :: scored_rest)

/-- RerankingRetriever._rerank_by_term_overlap (retriever.py lines
118-143): score every candidate against the query term set, then sort
descending by combined score (stable, as list.sort with reverse). -/
def rerank_by_term_overlap (query : String)
    (results : List (String × ℚ × Metadata)) :
    Py (List (String × ℚ × Metadata)) :=
  let query_terms := termSet query
  match scoreAll query_terms results with
  | .error e => .error e
  | .ok scored_results =>
    .ok (sortBy (fun a b => decide (b.2.1 ≤ a.2.1)) scored_results)

/-- RerankingRetriever.retrieve (retriever.py lines 80-116): resolve k by
truthiness, embed the query, fetch initial_k candidates, rerank them and
truncate to k. -/
def retrieve (retrieval_k initial_k : Nat)
    (embed_text : String → Py (List ℚ)) (dist : List ℚ → Entry → ℚ)
    (c : Collection) (query : String) (k : Option Nat) : Py (List Doc) :=
  let k := orDefault k retrieval_k
  match embed_text query with
  | .error e => .error e
  | .ok query_embedding =>
    match rerank_by_term_overlap query
        (ChromaVectorStore.search (dist query_embedding) c initial_k) with
    | .error e => .error e
    | .ok reranked =>
      .ok ((reranked.take k).map (fun r => Doc.mk r.1 r.2.1 r.2.2))

end RerankingRetriever

namespace ChatService

/-- Canned answer returned when retrieval yields no documents
(chat.py line 84). -/
def noContextAnswer : String :=
  "I couldn't find any relevant information to answer your question."

/-- Answer text produced by the catch-all exception handler
(chat.py line 122). -/
def errorAnswer (e : String) : String :=
  "An error occurred while processing your question: " ++ e

/-- One source entry built from a retrieved document
(chat.py lines 101-108): dict.get with defaults. -/
def mkSource (doc : Doc) : Source :=
  { video_title := doc.metadata.video_title.getD "Unknown"
    video_id := doc.metadata.video_id.getD ""
    channel_name := doc.metadata.channel_name.getD "Unknown"
    score := doc.score }

/-- Result of one `ask` call together with the observation whether the
generation collaborator was invoked during the call. -/
structure AskOutcome where
  result : Answer
  generator_called : Bool
deriving Repr, DecidableEq

/-- ChatService.ask (chat.py lines 60-124). The whole body sits in a
try/except-Exception block, so every branch produces `.ok`: a failed
retrieval (`retrieved = .error e`, e.g. an EmbeddingError from
SimpleRetriever.retrieve) and a failed generation both fall into the
handler of line 119, which returns the error payload of lines 121-124.
An empty document list returns the canned answer of lines 83-86 without
touching the generator. Sources are one entry per retrieved document,
in retrieval order (lines 99-109). -/
def ask (retrieved : Py (List Doc)) (generate : List String → Py String) :
    Py AskOutcome :=
  match retrieved with
  | .error e => .ok ⟨⟨errorAnswer e, []⟩, false⟩
  | .ok documents =>
    if documents.isEmpty then
      .ok ⟨⟨noContextAnswer, []⟩, false⟩
    else
      let context_texts := documents.map (·.text)
      match generate context_texts with
      | .error e => .ok ⟨⟨errorAnswer e, []⟩, true⟩
      | .ok answer => .ok ⟨⟨answer, documents.map mkSource⟩, true⟩

/-- ChatService.ask composed with the SimpleRetriever it constructs
(chat.py lines 37-40 and 80): the k argument is forwarded to
SimpleRetriever.retrieve unchanged. -/
def askService (retrieval_k : Nat) (embed_text : String → Py (List ℚ))
    (dist : List ℚ → Entry → ℚ) (c : Collection)
    (generate : List String → Py String) (question : String)
    (k : Option Nat) : Py AskOutcome :=
  ask (SimpleRetriever.retrieve retrieval_k embed_text dist c question k)
    generate

end ChatService

/-- A video item as listed by the YouTube client collaborator
(indexing.py lines 78-87 reads these keys). -/
structure Video where
  video_id : String
  title : String
  published_at : String
deriving Repr, DecidableEq

/-- Outcome of the transcript-fetch collaborator for one video: the text,
or the classified TranscriptNotAvailableError signal. -/
inductive FetchResult where
  | ok (transcript : String)
  | notAvailable
deriving Repr, DecidableEq

/-- A chunk produced by the chunker: text plus a copy of the item
metadata (chunker contract used by indexing.py lines 90-97). -/
structure Chunk where
  text : String
  metadata : Metadata
deriving Repr, DecidableEq

/-- The stats dict returned by IndexingService.index_channel
(indexing.py lines 117-123). -/
structure IndexStats where
  channel_name : String
  channel_id : String
  videos_indexed : Nat
  videos_skipped : Nat
  total_chunks : Nat
deriving Repr, DecidableEq

namespace IndexingService

/-- Per-video metadata assembled by index_channel
(indexing.py lines 81-87). -/
def videoMetadata (channel_id channel_name : String) (v : Video) : Metadata :=
  { video_id := some v.video_id
    video_title := some v.title
    channel_id := some channel_id
    channel_name := some channel_name
    published_at := some v.published_at }

/-- Mutable state of the per-video loop of index_channel: the vector
store collection plus the three counters of lines 71-73. -/
structure LoopState where
  store : Collection
  total_chunks : Nat
  videos_indexed : Nat
  videos_skipped : Nat
deriving Repr, DecidableEq

/-- The per-video loop of IndexingService.index_channel (indexing.py lines
75-115): a TranscriptNotAvailableError is caught, counted as skipped and
the loop continues (lines 110-115); chunking, batch embedding and the
store write happen per item, and an embedding failure escapes the loop
(only TranscriptNotAvailableError is caught inside it). -/
def indexLoop (chunk_text : String → Metadata → List Chunk)
    (embed_batch : List String → Py (List (List ℚ)))
    (fetch : Video → FetchResult) (channel_id channel_name : String) :
    List Video → LoopState → Py LoopState
  | [], st => .ok st
  | video :: rest, st =>
    match fetch video with
    | .notAvailable =>
      indexLoop chunk_text embed_batch fetch channel_id channel_name rest
        { st with videos_skipped := st.videos_skipped + 1 }
    | .ok transcript =>
      let metadata := videoMetadata channel_id channel_name video
      let chunks := chunk_text transcript metadata
      let chunk_texts := chunks.map (·.text)
      match embed_batch chunk_texts with
      | .error e => .error e
      | .ok embeddings =>
        let chunk_metadatas := chunks.map (·.metadata)
        let store := ChromaVectorStore.add_documents st.store chunk_texts
          embeddings (some chunk_metadatas) none
        indexLoop chunk_text embed_batch fetch channel_id channel_name rest
          { store := store
            total_chunks := st.total_chunks + chunks.length
            videos_indexed := st.videos_indexed + 1
            videos_skipped := st.videos_skipped }

/-- IndexingService.index_channel (indexing.py lines 43-130): run the
per-video loop from zeroed counters and assemble the stats dict of lines
117-123; the outer try/except wraps any escaped exception (such as an
EmbeddingError) as IndexingError with the message of line 130, which
propagates to the caller. Returns the stats together with the updated
collection. -/
def index_channel (chunk_text : String → Metadata → List Chunk)
    (embed_batch : List String → Py (List (List ℚ)))
    (fetch : Video → FetchResult) (channel_id channel_name : String)
    (videos : List Video) (store : Collection) :
    Py (IndexStats × Collection) :=
  match indexLoop chunk_text embed_batch fetch channel_id channel_name videos
      ⟨store, 0, 0, 0⟩ with
  | .error e => .error ("Failed to index channel: " ++ e)
  | .ok st =>
    .ok (⟨channel_name, channel_id, st.videos_indexed, st.videos_skipped,
      st.total_chunks⟩, st.store)

/-- Whether the transcript-fetch collaborator has a transcript for a
video. -/
def isAvailable (fetch : Video → FetchResult) (v : Video) : Bool :=
  match fetch v with
  | .ok _ => true
  | .notAvailable => false

/-- Number of chunks the chunker produces for one video (0 when its
transcript is unavailable). -/
def chunkCount (chunk_text : String → Metadata → List Chunk)
    (fetch : Video → FetchResult) (channel_id channel_name : String)
    (v : Video) : Nat :=
  match fetch v with
  | .ok t => (chunk_text t (videoMetadata channel_id channel_name v)).length
  | .notAvailable => 0

end IndexingService

/-- A claim-C1 counterexample metadata: two retrieved chunks of the same
video share it. -/
def dupMeta : Metadata :=
  { video_id := some "v1", video_title := some "T", channel_name := some "C" }

/-- First chunk of video v1. -/
def dupDoc1 : Doc := ⟨"chunk one", 9/10, dupMeta⟩

/-- Second chunk of the same video v1. -/
def dupDoc2 : Doc := ⟨"chunk two", 8/10, dupMeta⟩

/-- Reranking candidate A of the spec's example: similarity 0.50, contains
both query terms. -/
def candA : String × ℚ × Metadata := ("cats and dogs playing", 1/2, {})

/-- Reranking candidate B of the spec's example: similarity 0.90, contains
neither query term. -/
def candB : String × ℚ × Metadata := ("the weather is nice today", 9/10, {})

/-- Five texts for the id-generation example. -/
def idTexts5 : List String := ["a", "b", "c", "d", "e"]

/-- Embeddings matching idTexts5. -/
def idEmbs5 : List (List ℚ) := [[0], [0], [0], [0], [0]]

/-- Metadatas matching idTexts5. -/
def idMetas5 : List Metadata := [{}, {}, {}, {}, {}]

/-- The collection after adding five documents with no explicit ids to an
empty collection. -/
def idStore5 : Collection :=
  ChromaVectorStore.add_documents [] idTexts5 idEmbs5 (some idMetas5) none

/-- Three further texts for the id-generation example. -/
def idTexts3 : List String := ["x", "y", "z"]

/-- Embeddings matching idTexts3. -/
def idEmbs3 : List (List ℚ) := [[0], [0], [0]]

/-- Metadatas matching idTexts3. -/
def idMetas3 : List Metadata := [{}, {}, {}]

/-- Five videos for the indexing example; videos 2 and 4 will lack
transcripts. -/
def wVideos : List Video :=
  [⟨"v1", "t1", "2020"⟩, ⟨"v2", "t2", "2020"⟩, ⟨"v3", "t3", "2020"⟩,
   ⟨"v4", "t4", "2020"⟩, ⟨"v5", "t5", "2020"⟩]

/-- Transcript collaborator of the indexing example: videos v2 and v4
signal TranscriptNotAvailableError, the rest return a transcript. -/
def wFetch : Video → FetchResult := fun v =>
  if v.video_id = "v2" ∨ v.video_id = "v4" then FetchResult.notAvailable
  else FetchResult.ok ("transcript " ++ v.video_id)

/-- Chunker of the indexing example: one chunk per transcript. -/
def wChunker : String → Metadata → List Chunk := fun t m => [⟨t, m⟩]

/-- Embedder of the indexing example: always succeeds with one vector per
text. -/
def wEmbed : List String → Py (List (List ℚ)) := fun ts =>
  Except.ok (ts.map (fun _ => [0]))

/- ------------------------------------------------------------------ -/
/- Theorems. -/
/- ------------------------------------------------------------------ -/

theorem length_insertBy {α : Type} (le : α → α → Bool) (a : α) :
    ∀ l : List α, (insertBy le a l).length = l.length + 1 := by
  intro l
  induction l with
  | nil => rfl
  | cons b l ih =>
    simp only [insertBy]
    by_cases h : le a b = true
    · simp [h]
    · simp [h, ih]

theorem length_sortBy {α : Type} (le : α → α → Bool) :
    ∀ l : List α, (sortBy le l).length = l.length := by
  intro l
  induction l with
  | nil => rfl
  | cons a l ih => simp [sortBy, length_insertBy, ih]

theorem mem_insertBy {α : Type} (le : α → α → Bool) (a x : α) :
    ∀ l : List α, x ∈ insertBy le a l ↔ x = a ∨ x ∈ l := by
  intro l
  induction l with
  | nil => simp [insertBy]
  | cons b l ih =>
    simp only [insertBy]
    by_cases h : le a b = true
    · rw [if_pos h]
      simp
    · rw [if_neg h]
      simp only [List.mem_cons, ih]
      tauto

theorem pairwise_insertBy {α : Type} {le : α → α → Bool}
    (htot : ∀ a b, le a b = false → le b a = true)
    (htrans : ∀ a b c, le a b = true → le b c = true → le a c = true)
    (a : α) :
    ∀ l : List α, l.Pairwise (fun x y => le x y = true) →
      (insertBy le a l).Pairwise (fun x y => le x y = true) := by
  intro l
  induction l with
  | nil => simp [insertBy]
  | cons b l ih =>
    intro h
    rw [List.pairwise_cons] at h
    obtain ⟨hb, hl⟩ := h
    simp only [insertBy]
    by_cases hab : le a b = true
    · rw [if_pos hab, List.pairwise_cons]
      refine ⟨?_, List.pairwise_cons.mpr ⟨hb, hl⟩⟩
      intro x hx
      rcases List.mem_cons.mp hx with hxb | hx
      · rw [hxb]
        exact hab
      · exact htrans a b x hab (hb x hx)
    · rw [if_neg hab, List.pairwise_cons]
      refine ⟨?_, ih hl⟩
      intro x hx
      rcases (mem_insertBy le a x l).mp hx with hxa | hx
      · rw [hxa]
        cases hle : le a b with
        | true => exact absurd hle hab
        | false => exact htot a b hle
      · exact hb x hx

theorem pairwise_sortBy {α : Type} {le : α → α → Bool}
    (htot : ∀ a b, le a b = false → le b a = true)
    (htrans : ∀ a b c, le a b = true → le b c = true → le a c = true) :
    ∀ l : List α, (sortBy le l).Pairwise (fun x y => le x y = true) := by
  intro l
  induction l with
  | nil => simp [sortBy]
  | cons a l ih => exact pairwise_insertBy htot htrans a _ ih

/-- C1: the claim states that the sources list of `ask` contains no two
entries with the same video_id. Counterexample: two retrieved chunks of
the same video v1 produce two source entries that both carry video_id
v1 — chat.py lines 98-109 append one source per document with no
deduplication. -/
theorem C1_sources_dedup_counterexample :
    ChatService.ask (Except.ok [dupDoc1, dupDoc2]) (fun _ => Except.ok "ans")
      = Except.ok ⟨⟨"ans", [⟨"T", "v1", "C", 9/10⟩, ⟨"T", "v1", "C", 8/10⟩]⟩, true⟩
    ∧ ¬ (([(⟨"T", "v1", "C", 9/10⟩ : Source), ⟨"T", "v1", "C", 8/10⟩]).map
        (·.video_id)).Nodup := by
  constructor
  · rfl
  · decide

/-- C1 (amended): when generation succeeds, the sources list of `ask`
contains exactly one entry per retrieved document, in retrieval order,
with no deduplication by video_id — duplicates of the same content id
are kept. -/
theorem C1_sources_one_per_document (docs : List Doc)
    (generate : List String → Py String) (answer : String)
    (hgen : generate (docs.map (·.text)) = Except.ok answer)
    (hne : docs ≠ []) :
    ChatService.ask (Except.ok docs) generate
      = Except.ok ⟨⟨answer, docs.map ChatService.mkSource⟩, true⟩ := by
  cases docs with
  | nil => exact absurd rfl hne
  | cons d ds =>
    simp only [List.map_cons] at hgen
    simp [ChatService.ask, hgen]

/-- Witness for C1 (amended) at the concrete duplicate-video input. -/
theorem C1_sources_one_per_document_witness :
    ChatService.ask (Except.ok [dupDoc1, dupDoc2]) (fun _ => Except.ok "ans")
      = Except.ok ⟨⟨"ans", [dupDoc1, dupDoc2].map ChatService.mkSource⟩, true⟩ :=
  C1_sources_one_per_document [dupDoc1, dupDoc2] (fun _ => Except.ok "ans")
    "ans" rfl (by decide)

/-- C6: when the retriever returns an empty document list, `ask` returns
the canned no-context answer with an empty sources list and never
invokes the generation collaborator (chat.py lines 82-86): the outcome
is the same for every generator and records generator_called = false. -/
theorem C6_empty_retrieval_canned_answer
    (generate : List String → Py String) :
    ChatService.ask (Except.ok []) generate
      = Except.ok ⟨⟨ChatService.noContextAnswer, []⟩, false⟩ := rfl

/-- C7: when retrieval returns documents but the generation collaborator
raises, `ask` does not raise: it returns an answer-shaped payload whose
answer field is the human-readable error description and whose sources
list is empty (chat.py lines 119-124). -/
theorem C7_generation_failure_degraded_answer (docs : List Doc)
    (generate : List String → Py String) (e : String)
    (hne : docs ≠ [])
    (hgen : generate (docs.map (·.text)) = Except.error e) :
    ChatService.ask (Except.ok docs) generate
      = Except.ok ⟨⟨ChatService.errorAnswer e, []⟩, true⟩ := by
  cases docs with
  | nil => exact absurd rfl hne
  | cons d ds =>
    simp only [List.map_cons] at hgen
    simp [ChatService.ask, hgen]

/-- Witness for C7 at a concrete document and failing generator. -/
theorem C7_generation_failure_degraded_answer_witness :
    ChatService.ask (Except.ok [dupDoc1])
        (fun _ => Except.error "Failed to generate response: boom")
      = Except.ok ⟨⟨ChatService.errorAnswer "Failed to generate response: boom",
          []⟩, true⟩ :=
  C7_generation_failure_degraded_answer [dupDoc1]
    (fun _ => Except.error "Failed to generate response: boom")
    "Failed to generate response: boom" (by decide) rfl

theorem decDigit_digitChar : ∀ n < 10, decDigit (Nat.digitChar n) = n := by
  decide

theorem toDigitsCore_eq (n : Nat) :
    ∀ (fuel : Nat) (ds : List Char), n < fuel →
      Nat.toDigitsCore 10 fuel n ds = Nat.toDigits 10 n ++ ds := by
  induction n using Nat.strong_induction_on with
  | _ n ih =>
    intro fuel ds hfuel
    cases fuel with
    | zero => omega
    | succ fuel =>
      by_cases h10 : n / 10 = 0
      · simp [Nat.toDigitsCore, Nat.toDigits, h10]
      · have hpos : 0 < n := by omega
        have hdiv : n / 10 < n := Nat.div_lt_self hpos (by omega)
        have hstep :
            Nat.toDigitsCore 10 (fuel + 1) n ds
              = Nat.toDigitsCore 10 fuel (n / 10)
                  (Nat.digitChar (n % 10) :: ds) := by
          simp [Nat.toDigitsCore, h10]
        have hself :
            Nat.toDigits 10 n
              = Nat.toDigits 10 (n / 10) ++ [Nat.digitChar (n % 10)] := by
          show Nat.toDigitsCore 10 (n + 1) n [] = _
          have : Nat.toDigitsCore 10 (n + 1) n []
              = Nat.toDigitsCore 10 n (n / 10)
                  (Nat.digitChar (n % 10) :: []) := by
            simp [Nat.toDigitsCore, h10]
          rw [this, ih (n / 10) hdiv n _ (by omega)]
        rw [hstep, ih (n / 10) hdiv fuel _ (by omega), hself,
          List.append_assoc]
        rfl

theorem parseDigits_toDigits : ∀ n : Nat, parseDigits (Nat.toDigits 10 n) 0 = n := by
  intro n
  induction n using Nat.strong_induction_on with
  | _ n ih =>
    by_cases h10 : n / 10 = 0
    · have hn : n < 10 := by omega
      have hrepr : Nat.toDigits 10 n = [Nat.digitChar (n % 10)] := by
        simp [Nat.toDigits, Nat.toDigitsCore, h10]
      rw [hrepr]
      have hmod : n % 10 = n := Nat.mod_eq_of_lt hn
      simp [parseDigits, hmod, decDigit_digitChar n hn]
    · have hpos : 0 < n := by omega
      have hdiv : n / 10 < n := Nat.div_lt_self hpos (by omega)
      have hself :
          Nat.toDigits 10 n
            = Nat.toDigits 10 (n / 10) ++ [Nat.digitChar (n % 10)] := by
        show Nat.toDigitsCore 10 (n + 1) n [] = _
        have : Nat.toDigitsCore 10 (n + 1) n []
            = Nat.toDigitsCore 10 n (n / 10)
                (Nat.digitChar (n % 10) :: []) := by
          simp [Nat.toDigitsCore, h10]
        rw [this, toDigitsCore_eq (n / 10) n _ (by omega)]
      rw [hself]
      have hfold : parseDigits (Nat.toDigits 10 (n / 10)
            ++ [Nat.digitChar (n % 10)]) 0
          = 10 * parseDigits (Nat.toDigits 10 (n / 10)) 0
              + decDigit (Nat.digitChar (n % 10)) := by
        simp [parseDigits, List.foldl_append]
      rw [hfold, ih (n / 10) hdiv,
        decDigit_digitChar (n % 10) (Nat.mod_lt n (by omega))]
      omega

theorem repr_injective : Function.Injective Nat.repr := by
  intro m n h
  have hdata : Nat.toDigits 10 m = Nat.toDigits 10 n := congrArg String.data h
  have := congrArg (fun cs => parseDigits cs 0) hdata
  simpa [parseDigits_toDigits] using this

theorem docId_injective : Function.Injective ChromaVectorStore.docId := by
  intro m n h
  have hdata : "doc_".data ++ (Nat.repr m).data
      = "doc_".data ++ (Nat.repr n).data := by
    have := congrArg String.data h
    simpa [ChromaVectorStore.docId, String.data_append] using this
  have hrepr : (Nat.repr m).data = (Nat.repr n).data :=
    List.append_cancel_left hdata
  exact repr_injective (String.ext hrepr)

theorem map_id_mkEntries :
    ∀ (is ts : List String) (es : List (List ℚ)) (ms : List Metadata),
      ts.length = is.length → es.length = is.length → ms.length = is.length →
      (ChromaVectorStore.mkEntries is ts es ms).map (·.id) = is := by
  intro is
  induction is with
  | nil =>
    intro ts es ms h1 h2 h3
    simp only [List.length_nil] at h1 h2 h3
    rw [List.length_eq_zero] at h1 h2 h3
    subst h1; subst h2; subst h3
    rfl
  | cons i is ih =>
    intro ts es ms h1 h2 h3
    cases ts with
    | nil => simp at h1
    | cons t ts =>
      cases es with
      | nil => simp at h2
      | cons e es =>
        cases ms with
        | nil => simp at h3
        | cons m ms =>
          simp only [List.length_cons, Nat.add_right_cancel_iff] at h1 h2 h3
          simp only [ChromaVectorStore.mkEntries, List.map_cons]
          rw [ih ts es ms h1 h2 h3]

/-- C9: when ids are omitted, add_documents generates ids from the
collection size at call time plus a per-call sequence number; on any
collection whose ids already follow that scheme, the resulting ids still
follow it, are pairwise distinct, and the newly generated ids collide
with none of the previously stored ones. -/
theorem C9_generated_ids_unique (c : Collection) (texts : List String)
    (embs : List (List ℚ)) (metas : List Metadata)
    (hc : c.map (·.id) = (List.range c.length).map ChromaVectorStore.docId)
    (he : embs.length = texts.length) (hm : metas.length = texts.length) :
    ((ChromaVectorStore.add_documents c texts embs (some metas) none).map (·.id)
      = (List.range (c.length + texts.length)).map ChromaVectorStore.docId)
    ∧ ((ChromaVectorStore.add_documents c texts embs (some metas) none).map
        (·.id)).Nodup
    ∧ ∀ s ∈ (List.range texts.length).map
        (fun i => ChromaVectorStore.docId (c.length + i)),
        s ∉ c.map (·.id) := by
  have hlen : ((List.range texts.length).map
      (fun i => ChromaVectorStore.docId (c.length + i))).length
      = texts.length := by simp
  have hids :
      (ChromaVectorStore.add_documents c texts embs (some metas) none).map (·.id)
        = (List.range (c.length + texts.length)).map ChromaVectorStore.docId := by
    unfold ChromaVectorStore.add_documents
    simp only [List.map_append]
    rw [map_id_mkEntries _ texts embs metas (by simp) (by simp [he])
        (by simp [hm]),
      hc, List.range_add, List.map_append, List.map_map]
    simp [Function.comp]
  refine ⟨hids, ?_, ?_⟩
  · rw [hids]
    exact (List.nodup_range _).map docId_injective
  · intro s hs hmem
    rw [hc] at hmem
    simp only [List.mem_map, List.mem_range] at hs hmem
    obtain ⟨i, hi, rfl⟩ := hs
    obtain ⟨j, hj, hij⟩ := hmem
    have := docId_injective hij
    omega

/-- Witness for C9: adding 5 documents to an empty collection and then 3
more yields 8 pairwise-distinct ids, the 3 new ones disjoint from the
first 5. -/
theorem C9_generated_ids_unique_witness :
    ((ChromaVectorStore.add_documents idStore5 idTexts3 idEmbs3
        (some idMetas3) none).map (·.id)).Nodup
    ∧ ∀ s ∈ (List.range idTexts3.length).map
        (fun i => ChromaVectorStore.docId (idStore5.length + i)),
        s ∉ idStore5.map (·.id) := by
  have h5 := C9_generated_ids_unique [] idTexts5 idEmbs5 idMetas5 rfl rfl rfl
  have h3 := C9_generated_ids_unique idStore5 idTexts3 idEmbs3 idMetas3
    (by exact h5.1) rfl rfl
  exact ⟨h3.2.1, h3.2.2⟩

/-- C8: search returns at most min(k, collection size) results, neither
erroring nor padding, ordered by descending similarity score. -/
theorem C8_search_min_and_sorted (dist : Entry → ℚ) (c : Collection) (k : Nat) :
    (ChromaVectorStore.search dist c k).length = min k c.length
    ∧ (ChromaVectorStore.search dist c k).Pairwise
        (fun a b => b.2.1 ≤ a.2.1) := by
  constructor
  · simp [ChromaVectorStore.search, ChromaVectorStore.query, length_sortBy]
  · have hsorted : (sortBy (fun a b => decide (dist a ≤ dist b)) c).Pairwise
        (fun a b => dist a ≤ dist b) := by
      have := @pairwise_sortBy Entry (fun a b => decide (dist a ≤ dist b))
        (fun a b hab => by
          simp only [decide_eq_false_iff_not, not_le] at hab
          simpa using hab.le)
        (fun a b x hab hbx => by
          simp only [decide_eq_true_eq] at hab hbx ⊢
          exact hab.trans hbx) c
      exact this.imp (fun h => by simpa using h)
    have htake : (ChromaVectorStore.query dist c k).Pairwise
        (fun a b => dist a ≤ dist b) :=
      hsorted.sublist (List.take_sublist _ _)
    unfold ChromaVectorStore.search
    rw [List.pairwise_map]
    exact htake.imp (fun h => by simpa using sub_le_sub_left h 1)

/-- C2: evaluation of the code at the failing input. An empty (or
all-whitespace) query yields an empty term set, and
_rerank_by_term_overlap divides the intersection size by zero for the
first candidate — retriever.py line 135 has no guard, so
RerankingRetriever.retrieve raises ZeroDivisionError instead of treating
the overlap as 0. -/
theorem C2_empty_query_division_by_zero :
    RerankingRetriever.termSet "" = []
    ∧ RerankingRetriever.rerank_by_term_overlap "" [candA]
        = Except.error "ZeroDivisionError: division by zero"
    ∧ RerankingRetriever.retrieve 5 20 (fun _ => Except.ok [1])
        (fun _ _ => 1/10) [⟨"doc_0", "some document text", [1], {}⟩] "" none
        = Except.error "ZeroDivisionError: division by zero" := by
  refine ⟨rfl, rfl, rfl⟩

/-- C3: counterexample to the claim that an EmbeddingError raised while
embedding the query propagates to the caller of ChatService.ask: the
catch-all handler of chat.py lines 119-124 converts it into a normal
return value (an ok answer payload), so the call does not raise. -/
theorem C3_chat_embedding_error_counterexample :
    ChatService.askService 5 (fun _ => Except.error "Failed to generate embedding: boom")
        (fun _ _ => 0) [] (fun _ => Except.ok "ans") "what" none
      = Except.ok ⟨⟨ChatService.errorAnswer "Failed to generate embedding: boom",
          []⟩, false⟩
    ∧ (ChatService.askService 5
        (fun _ => Except.error "Failed to generate embedding: boom")
        (fun _ _ => 0) [] (fun _ => Except.ok "ans") "what" none).isOk
        = true := ⟨rfl, rfl⟩

/-- C3 (amended): an EmbeddingError is fatal for indexing — it escapes the
per-video loop and propagates to the caller of index_channel, wrapped as
IndexingError — while during retrieval under ChatService.ask it is
caught by the catch-all handler and converted into a normal error-answer
payload with empty sources instead of propagating. -/
theorem C3_embedding_error_fatal_in_indexing_caught_in_chat :
    (∀ (v : Video) (transcript e channel_id channel_name : String)
        (chunk_text : String → Metadata → List Chunk) (store : Collection),
      IndexingService.index_channel chunk_text (fun _ => Except.error e)
          (fun _ => FetchResult.ok transcript) channel_id channel_name [v] store
        = Except.error ("Failed to index channel: " ++ e))
    ∧ ∀ (rk : Nat) (e : String) (dist : List ℚ → Entry → ℚ) (c : Collection)
        (generate : List String → Py String) (q : String) (k : Option Nat),
      ChatService.askService rk (fun _ => Except.error e) dist c generate q k
        = Except.ok ⟨⟨ChatService.errorAnswer e, []⟩, false⟩ := by
  constructor
  · intro v transcript e channel_id channel_name chunk_text store
    rfl
  · intro rk e dist c generate q k
    rfl

/-- C5: the reranking formula and the spec's example. First conjunct: for
query "cats dogs", candidate A (similarity 0.50, both terms, combined
0.65) is ranked before candidate B (similarity 0.90, neither term,
combined 0.63). Second conjunct: whenever reranking succeeds its output
is sorted descending by combined score. Third conjunct: retrieve
truncates the reranked list to k. -/
theorem C5_rerank_combined_score :
    (RerankingRetriever.rerank_by_term_overlap "cats dogs" [candB, candA]
      = Except.ok [("cats and dogs playing", 13/20, {}),
          ("the weather is nice today", 63/100, {})])
    ∧ (∀ (query : String) (results out : List (String × ℚ × Metadata)),
        RerankingRetriever.rerank_by_term_overlap query results
          = Except.ok out →
        out.Pairwise (fun a b => b.2.1 ≤ a.2.1))
    ∧ ∀ (rk ik : Nat) (embed : String → Py (List ℚ))
        (dist : List ℚ → Entry → ℚ) (c : Collection) (q : String)
        (k : Option Nat) (docs : List Doc),
        RerankingRetriever.retrieve rk ik embed dist c q k = Except.ok docs →
        docs.length ≤ orDefault k rk := by
  refine ⟨?_, ?_, ?_⟩
  · have hB : RerankingRetriever.scoreResult
        (RerankingRetriever.termSet "cats dogs") candB
        = Except.ok ("the weather is nice today", 63/100, {}) := by
      have h0 : RerankingRetriever.scoreResult
          (RerankingRetriever.termSet "cats dogs") candB
          = Except.ok ("the weather is nice today",
              (7 / 10 : ℚ) * (9 / 10)
                + (3 / 10 : ℚ) * (((0 : Nat) : ℚ) / ((2 : Nat) : ℚ)), {}) := rfl
      rw [h0]
      norm_num
    have hA : RerankingRetriever.scoreResult
        (RerankingRetriever.termSet "cats dogs") candA
        = Except.ok ("cats and dogs playing", 13/20, {}) := by
      have h0 : RerankingRetriever.scoreResult
          (RerankingRetriever.termSet "cats dogs") candA
          = Except.ok ("cats and dogs playing",
              (7 / 10 : ℚ) * (1 / 2)
                + (3 / 10 : ℚ) * (((2 : Nat) : ℚ) / ((2 : Nat) : ℚ)), {}) := rfl
      rw [h0]
      norm_num
    have hscored : RerankingRetriever.scoreAll
        (RerankingRetriever.termSet "cats dogs") [candB, candA]
        = Except.ok [("the weather is nice today", 63/100, {}),
            ("cats and dogs playing", 13/20, {})] := by
      simp [RerankingRetriever.scoreAll, hB, hA]
    have hle : (decide ((13/20 : ℚ) ≤ 63/100)) = false := by norm_num
    simp only [RerankingRetriever.rerank_by_term_overlap]
    rw [hscored]
    simp [sortBy, insertBy, hle]
  · intro query results out h
    simp only [RerankingRetriever.rerank_by_term_overlap] at h
    cases hm : RerankingRetriever.scoreAll
        (RerankingRetriever.termSet query) results with
    | error e =>
      rw [hm] at h
      simp at h
    | ok scored =>
      rw [hm] at h
      simp only [Except.ok.injEq] at h
      rw [← h]
      have := @pairwise_sortBy (String × ℚ × Metadata)
        (fun a b => decide (b.2.1 ≤ a.2.1))
        (fun a b hab => by
          simp only [decide_eq_false_iff_not, not_le] at hab
          simpa using hab.le)
        (fun a b x hab hbx => by
          simp only [decide_eq_true_eq] at hab hbx ⊢
          exact hbx.trans hab) scored
      exact this.imp (fun h => by simpa using h)
  · intro rk ik embed dist c q k docs h
    simp only [RerankingRetriever.retrieve] at h
    cases he : embed q with
    | error e =>
      rw [he] at h
      simp at h
    | ok qe =>
      rw [he] at h
      simp only [] at h
      cases hr : RerankingRetriever.rerank_by_term_overlap q
          (ChromaVectorStore.search (dist qe) c ik) with
      | error e =>
        rw [hr] at h
        simp at h
      | ok reranked =>
        rw [hr] at h
        simp only [Except.ok.injEq] at h
        rw [← h, List.length_map]
        exact List.length_take_le _ _

/-- Witness for C5: the general conjuncts applied at concrete inputs —
the example output is sorted descending, and a retrieve call on an empty
collection respects the k bound. -/
theorem C5_rerank_combined_score_witness :
    ([(("cats and dogs playing" : String), (13/20 : ℚ), ({} : Metadata)),
        ("the weather is nice today", 63/100, {})].Pairwise
      (fun a b => b.2.1 ≤ a.2.1))
    ∧ ([] : List Doc).length ≤ orDefault none 5 :=
  ⟨C5_rerank_combined_score.2.1 "cats dogs" [candB, candA] _
      C5_rerank_combined_score.1,
    C5_rerank_combined_score.2.2 5 20 (fun _ => Except.ok [])
      (fun _ _ => 0) [] "q" none [] rfl⟩

/-- C10: an explicit k = 0 does not select 0 results: `k or retrieval_k`
tests truthiness, so k=0 falls back to the configured default and each
of SimpleRetriever.retrieve, RerankingRetriever.retrieve and
ChatService.ask behaves exactly as with k omitted. -/
theorem C10_k_zero_falls_back_to_default :
    (∀ d : Nat, orDefault (some 0) d = d)
    ∧ (∀ (rk : Nat) (embed : String → Py (List ℚ))
        (dist : List ℚ → Entry → ℚ) (c : Collection) (q : String),
        SimpleRetriever.retrieve rk embed dist c q (some 0)
          = SimpleRetriever.retrieve rk embed dist c q none)
    ∧ (∀ (rk ik : Nat) (embed : String → Py (List ℚ))
        (dist : List ℚ → Entry → ℚ) (c : Collection) (q : String),
        RerankingRetriever.retrieve rk ik embed dist c q (some 0)
          = RerankingRetriever.retrieve rk ik embed dist c q none)
    ∧ ∀ (rk : Nat) (embed : String → Py (List ℚ))
        (dist : List ℚ → Entry → ℚ) (c : Collection)
        (generate : List String → Py String) (q : String),
        ChatService.askService rk embed dist c generate q (some 0)
          = ChatService.askService rk embed dist c generate q none :=
  ⟨fun _ => rfl, fun _ _ _ _ _ => rfl, fun _ _ _ _ _ _ => rfl,
    fun _ _ _ _ _ _ => rfl⟩

theorem indexLoop_stats (chunk_text : String → Metadata → List Chunk)
    (embed_batch : List String → Py (List (List ℚ)))
    (fetch : Video → FetchResult) (channel_id channel_name : String)
    (hemb : ∀ ts, ∃ vs, embed_batch ts = Except.ok vs) :
    ∀ (videos : List Video) (st : IndexingService.LoopState),
      ∃ store',
        IndexingService.indexLoop chunk_text embed_batch fetch channel_id
            channel_name videos st
          = Except.ok ⟨store',
              st.total_chunks + (videos.map (IndexingService.chunkCount
                chunk_text fetch channel_id channel_name)).sum,
              st.videos_indexed + videos.countP
                (fun v => IndexingService.isAvailable fetch v),
              st.videos_skipped + videos.countP
                (fun v => !(IndexingService.isAvailable fetch v))⟩ := by
  intro videos
  induction videos with
  | nil =>
    intro st
    exact ⟨st.store, by simp [IndexingService.indexLoop]⟩
  | cons v rest ih =>
    intro st
    cases hfv : fetch v with
    | notAvailable =>
      obtain ⟨s', hs'⟩ := ih { st with videos_skipped := st.videos_skipped + 1 }
      refine ⟨s', ?_⟩
      simp only [IndexingService.indexLoop, hfv]
      rw [hs']
      have hc0 : IndexingService.chunkCount chunk_text fetch channel_id
          channel_name v = 0 := by
        simp [IndexingService.chunkCount, hfv]
      have hia : IndexingService.isAvailable fetch v = false := by
        simp [IndexingService.isAvailable, hfv]
      simp [List.countP_cons, hc0, hia]
      all_goals omega
    | ok transcript =>
      obtain ⟨vs, hvs⟩ := hemb ((chunk_text transcript
        (IndexingService.videoMetadata channel_id channel_name v)).map (·.text))
      obtain ⟨s', hs'⟩ := ih
        { store := ChromaVectorStore.add_documents st.store
            ((chunk_text transcript (IndexingService.videoMetadata channel_id
              channel_name v)).map (·.text)) vs
            (some ((chunk_text transcript (IndexingService.videoMetadata
              channel_id channel_name v)).map (·.metadata))) none
          total_chunks := st.total_chunks + (chunk_text transcript
            (IndexingService.videoMetadata channel_id channel_name v)).length
          videos_indexed := st.videos_indexed + 1
          videos_skipped := st.videos_skipped }
      refine ⟨s', ?_⟩
      simp only [IndexingService.indexLoop, hfv, hvs]
      rw [hs']
      have hcv : IndexingService.chunkCount chunk_text fetch channel_id
          channel_name v = (chunk_text transcript
            (IndexingService.videoMetadata channel_id channel_name v)).length := by
        simp [IndexingService.chunkCount, hfv]
      have hia : IndexingService.isAvailable fetch v = true := by
        simp [IndexingService.isAvailable, hfv]
      simp [List.countP_cons, hcv, hia]
      all_goals omega

/-- C4: transcript unavailability is skip-not-fatal, and the returned
stats count exactly the processed and skipped items and total the chunk
counts of the processed ones: for any item list and any
transcript-fetch collaborator, as long as embedding succeeds,
index_channel returns videos_indexed = number of items with a
transcript, videos_skipped = number of items without one, and
total_chunks = the summed chunk counts of the items with one. -/
theorem C4_unavailable_transcript_skipped
    (chunk_text : String → Metadata → List Chunk)
    (embed_batch : List String → Py (List (List ℚ)))
    (fetch : Video → FetchResult) (channel_id channel_name : String)
    (videos : List Video) (store : Collection)
    (hemb : ∀ ts, ∃ vs, embed_batch ts = Except.ok vs) :
    ∃ store',
      IndexingService.index_channel chunk_text embed_batch fetch channel_id
          channel_name videos store
        = Except.ok (⟨channel_name, channel_id,
            videos.countP (fun v => IndexingService.isAvailable fetch v),
            videos.countP (fun v => !(IndexingService.isAvailable fetch v)),
            (videos.map (IndexingService.chunkCount chunk_text fetch channel_id
              channel_name)).sum⟩, store') := by
  obtain ⟨s', hs'⟩ := indexLoop_stats chunk_text embed_batch fetch channel_id
    channel_name hemb videos ⟨store, 0, 0, 0⟩
  refine ⟨s', ?_⟩
  simp only [IndexingService.index_channel]
  rw [hs']
  simp

/-- Witness for C4: the spec's example — 5 items, items 2 and 4 with no
transcript, one chunk per transcript — yields videos_indexed = 3,
videos_skipped = 2, total_chunks = 3. -/
theorem C4_unavailable_transcript_skipped_witness :
    ∃ store',
      IndexingService.index_channel wChunker wEmbed wFetch "UC1" "Chan"
          wVideos []
        = Except.ok (⟨"Chan", "UC1", 3, 2, 3⟩, store') := by
  obtain ⟨s', hs'⟩ := C4_unavailable_transcript_skipped wChunker wEmbed wFetch
    "UC1" "Chan" wVideos [] (fun ts => ⟨ts.map (fun _ => [0]), rfl⟩)
  refine ⟨s', ?_⟩
  rw [hs']
  have hstats : (⟨"Chan", "UC1",
      wVideos.countP (fun v => IndexingService.isAvailable wFetch v),
      wVideos.countP (fun v => !(IndexingService.isAvailable wFetch v)),
      (wVideos.map (IndexingService.chunkCount wChunker wFetch "UC1"
        "Chan")).sum⟩ : IndexStats) = ⟨"Chan", "UC1", 3, 2, 3⟩ := by decide
  rw [hstats]

end YoutubeRAG
